import Mathlib

/-!
Shallow embedding of the Lead-Management lifecycle and reporting engine
(src/app.py, src/flask_app.py, src/handlers.py, src/models.py).

Modelling conventions:
- Timestamps (`datetime`) are natural numbers counting seconds; `timedelta(hours=h)`
  is `h * 3600` seconds. Both front ends read the wall clock via `datetime.now()`;
  every clock read is passed in explicitly as a parameter, so each function is a
  pure function of the injected time(s).
- The SQLAlchemy store (table `leads`) is a `List Lead`; a session query
  `filter_by(...)` is `List.filter`, `.first()` is `List.find?`, `.count()` is
  the length of a filter, and committing an attribute assignment on the object
  returned by `.first()` is an in-place replacement of the first matching
  element of the list.
- Python `float` fields (`quoted_price`, the close-ratio percentage) are
  modelled as exact rationals `ℚ`; no lossy float arithmetic occurs in the
  translated code paths (prices are stored verbatim, ratios are one division).
- `try/except` store access is modelled with `Except DbError (List Lead)` as
  the read result where a claim is about the failure path.
-/

/-- Record shape of the `leads` table, from src/models.py lines 6-19.
`quoted_price` is the only nullable column. -/
structure Lead where
  id : String
  name : String
  source : String
  contact_method : String
  quote_status : String
  lead_status : String
  quoted_price : Option ℚ
  created_at : ℕ
  next_followup : ℕ
  status : String
deriving Repr, DecidableEq

/-- The dict `STATUS_FOLLOWUP_HOURS = {"Hot": 3, "Warm": 24, "Cold": 72}`
(src/app.py line 45, src/flask_app.py line 16), as a partial lookup. -/
def STATUS_FOLLOWUP_HOURS (lead_status : String) : Option ℕ :=
  if lead_status = "Hot" then some 3
  else if lead_status = "Warm" then some 24
  else if lead_status = "Cold" then some 72
  else none

/-- `calculate_next_followup` from src/app.py lines 52-55 and
src/flask_app.py lines 23-26: `hours = STATUS_FOLLOWUP_HOURS.get(lead_status, 24);
return datetime.now() + timedelta(hours=hours)`. The clock read is the
parameter `now`. -/
def calculate_next_followup (now : ℕ) (lead_status : String) : ℕ :=
  now + (STATUS_FOLLOWUP_HOURS lead_status).getD 24 * 3600

/-- The in-place `lead.status = new_status; session.commit()` on the object
returned by `.first()`: replace the first element whose `id` matches and leave
everything else untouched. -/
def set_status_first : List Lead → String → String → List Lead
  | [], _, _ => []
  | l :: ls, lead_id, new_status =>
    if l.id = lead_id then { l with status := new_status } :: ls
    else l :: set_status_first ls lead_id new_status

/-- `update_lead_status` from src/app.py lines 86-105, src/flask_app.py
lines 51-63 and src/handlers.py lines 5-23 (the three copies have identical
logic): look the lead up by id; if present, assign the new status
unconditionally and report success; if absent, report failure. There is no
check of the lead's current status anywhere on this path. -/
def update_lead_status (store : List Lead) (lead_id new_status : String) :
    Bool × List Lead :=
  match store.find? (fun l => decide (l.id = lead_id)) with
  | some _ => (true, set_status_first store lead_id new_status)
  | none => (false, store)

/-- `get_followup_leads` from src/app.py lines 165-193 and src/flask_app.py
lines 111-133: `query.filter_by(status='Active').filter(Lead.next_followup <= now)`. -/
def get_followup_leads (store : List Lead) (now : ℕ) : List Lead :=
  (store.filter (fun l => decide (l.status = "Active"))).filter
    (fun l => decide (l.next_followup ≤ now))

/-- `calculate_close_ratio` from src/app.py lines 195-218 and src/flask_app.py
lines 135-154 (happy path; the exception path is modelled separately below).
`if source:` is Python truthiness: both `None` and the empty string select the
unfiltered global queries. When the scope is non-empty the result is
`(closed / total) * 100`; when `total == 0` the function returns `0`. -/
def calculate_close_ratio (store : List Lead) (source : Option String) : ℚ :=
  let filterSource : Lead → Bool :=
    match source with
    | some s => if s = "" then fun _ => true else fun l => decide (l.source = s)
    | none => fun _ => true
  let total := (store.filter filterSource).length
  if total = 0 then 0
  else
    let closed := (store.filter
      (fun l => filterSource l && decide (l.status = "Closed"))).length
    (closed : ℚ) / (total : ℚ) * 100

/-- Result bundle of `get_source_close_ratios`. -/
structure SourceCloseRatios where
  overall : ℚ
  media_alpha : ℚ
  smart_financial : ℚ
  other : ℚ
deriving Repr, DecidableEq

/-- `get_source_close_ratios` from src/app.py lines 220-227 and
src/flask_app.py lines 156-164: the four keys are computed by four calls to
`calculate_close_ratio`, the last one filtering on the literal source string
"Other". -/
def get_source_close_ratios (store : List Lead) : SourceCloseRatios :=
  { overall := calculate_close_ratio store none
  , media_alpha := calculate_close_ratio store (some "Media Alpha")
  , smart_financial := calculate_close_ratio store (some "Smart Financial")
  , other := calculate_close_ratio store (some "Other") }

/-- The validated form fields a create request carries (src/flask_app.py
lines 417-446, src/app.py lines 369-418). `quoted_price` is the result of the
optional `float(...)` parse: `some q` when the field was submitted and parsed,
`none` otherwise; the handlers perform no further check on the parsed value. -/
structure LeadForm where
  name : String
  source : String
  contact_method : String
  quote_status : String
  lead_status : String
  quoted_price : Option ℚ
deriving Repr, DecidableEq

/-- The lead record built by the create handlers (src/flask_app.py
lines 420-446 `create_lead`, src/app.py lines 396-410
`display_add_lead_form`): `created_at` is one clock read (`now`);
`calculate_next_followup` performs its own, slightly later, clock read
(`now2`); `status` is the literal "Active". -/
def make_lead (now now2 : ℕ) (new_id : String) (form : LeadForm) : Lead :=
  { id := new_id
  , name := form.name
  , source := form.source
  , contact_method := form.contact_method
  , quote_status := form.quote_status
  , lead_status := form.lead_status
  , quoted_price := form.quoted_price
  , created_at := now
  , next_followup := calculate_next_followup now2 form.lead_status
  , status := "Active" }

/-- `save_lead` on the success path (src/app.py lines 57-78, src/flask_app.py
lines 28-45): `session.add(new_lead); session.commit()` appends the record. -/
def create_lead (store : List Lead) (now now2 : ℕ) (new_id : String)
    (form : LeadForm) : List Lead :=
  store ++ [make_lead now now2 new_id form]

/-- The two store-mutating operations the code exposes: the create handler and
the status-update handler (src/flask_app.py routes `/add-lead` POST and
`/update-status/<lead_id>/<new_status>`, and their src/app.py counterparts). -/
inductive Op where
  | create (now now2 : ℕ) (new_id : String) (form : LeadForm)
  | update (lead_id new_status : String)
deriving Repr, DecidableEq

/-- One request against the store. -/
def applyOp (store : List Lead) : Op → List Lead
  | Op.create now now2 new_id form => create_lead store now now2 new_id form
  | Op.update lead_id new_status => (update_lead_status store lead_id new_status).2

/-- The store state reached by a sequence of requests from the empty table. -/
def run (ops : List Op) : List Lead := List.foldl applyOp [] ops

/-- The two clock reads inside one create handler happen in program order:
`created_at = datetime.now()` runs before `calculate_next_followup` reads the
clock again, and the wall clock is monotone. -/
def monotoneClock : Op → Bool
  | Op.create now now2 _ _ => decide (now ≤ now2)
  | Op.update _ _ => true

/-- The status-update request carries one of the two targets the UI links
offer (src/flask_app.py lines 339-340, src/app.py lines 323-324). -/
def targetTerminal : Op → Bool
  | Op.update _ new_status =>
      decide (new_status = "Closed") || decide (new_status = "Lost")
  | Op.create _ _ _ _ => true

/-- The submitted quoted price, when present, is non-negative (what the
client-side `min="0"` form attribute promises, src/flask_app.py line 408,
src/app.py line 385). -/
def priceNonneg : Op → Bool
  | Op.create _ _ _ form =>
      match form.quoted_price with
      | some q => decide (0 ≤ q)
      | none => true
  | Op.update _ _ => true

/-- Store-layer failure: any exception raised by a session query
(connectivity, schema, constraint). -/
inductive DbError
  | failure
deriving Repr, DecidableEq

/-- The `try/except` wrapper of `calculate_close_ratio` (src/app.py
lines 214-218, src/flask_app.py lines 152-154): on any store exception the
function logs and returns `0`. -/
def calculate_close_ratio_db (db : Except DbError (List Lead))
    (source : Option String) : ℚ :=
  match db with
  | Except.error _ => 0
  | Except.ok store => calculate_close_ratio store source

/-- The `try/except` wrapper of `get_followup_leads` (src/app.py
lines 189-193, src/flask_app.py lines 131-133): on any store exception the
function logs and returns the empty list. -/
def get_followup_leads_db (db : Except DbError (List Lead)) (now : ℕ) :
    List Lead :=
  match db with
  | Except.error _ => []
  | Except.ok store => get_followup_leads store now

/-- Result shape of `get_lead_counts` (src/app.py lines 229-281). -/
structure LeadCounts where
  today_count : ℕ
  yesterday_count : ℕ
  status_counts : List (String × ℕ)
  lead_status_counts : List (String × ℕ)
deriving Repr, DecidableEq

/-- The `group_by` count query: one entry per distinct key with its
multiplicity. -/
def group_counts (keys : List String) : List (String × ℕ) :=
  keys.dedup.map (fun k => (k, keys.count k))

/-- `get_lead_counts` happy path (src/app.py lines 229-271): counts of leads
created inside `[00:00:00, 23:59:59]` of the current and previous calendar
day, plus `group_by` breakdowns over `status` and `lead_status`. Days are the
86400-second blocks of the second-granularity clock. -/
def get_lead_counts (store : List Lead) (now : ℕ) : LeadCounts :=
  let today_start := (now / 86400) * 86400
  let today_end := today_start + 86399
  let yesterday_start := today_start - 86400
  let yesterday_end := yesterday_start + 86399
  { today_count := (store.filter (fun l =>
      decide (today_start ≤ l.created_at) && decide (l.created_at ≤ today_end))).length
  , yesterday_count := (store.filter (fun l =>
      decide (yesterday_start ≤ l.created_at) && decide (l.created_at ≤ yesterday_end))).length
  , status_counts := group_counts (store.map (fun l => l.status))
  , lead_status_counts := group_counts (store.map (fun l => l.lead_status)) }

/-- The `try/except` wrapper of `get_lead_counts` (src/app.py lines 272-281):
on any store exception the function logs and returns the all-zero / all-empty
bundle. -/
def get_lead_counts_db (db : Except DbError (List Lead)) (now : ℕ) :
    LeadCounts :=
  match db with
  | Except.error _ =>
      { today_count := 0, yesterday_count := 0
      , status_counts := [], lead_status_counts := [] }
  | Except.ok store => get_lead_counts store now

/-- Modelled from the spec for comparison in C6: the scope of `CloseRatio` is
the set of leads with the supplied source when one is supplied, and all leads
otherwise. -/
def inScopeSpec (source : Option String) (l : Lead) : Bool :=
  match source with
  | none => true
  | some s => decide (l.source = s)

/-- The per-record frame property of a status update: every field except
`status` is unchanged, and a record whose id is not the requested one is
untouched entirely. -/
def frame_rel (lead_id : String) (l l2 : Lead) : Prop :=
  l2.id = l.id ∧ l2.name = l.name ∧ l2.source = l.source ∧
  l2.contact_method = l.contact_method ∧ l2.quote_status = l.quote_status ∧
  l2.lead_status = l.lead_status ∧ l2.quoted_price = l.quoted_price ∧
  l2.created_at = l.created_at ∧ l2.next_followup = l.next_followup ∧
  (l.id ≠ lead_id → l2 = l)

/-- A concrete already-closed lead from the non-first-class source "Website". -/
def closedLead : Lead :=
  { id := "L1", name := "Alice", source := "Website", contact_method := "Phone"
  , quote_status := "Sent", lead_status := "Hot", quoted_price := none
  , created_at := 0, next_followup := 10800, status := "Closed" }

/-- A concrete active lead from source "Media Alpha". -/
def activeLead : Lead :=
  { id := "L2", name := "Bob", source := "Media Alpha", contact_method := "Email"
  , quote_status := "Requested", lead_status := "Warm", quoted_price := some 100
  , created_at := 50, next_followup := 86450, status := "Active" }

/-- A concrete closed lead from source "Media Alpha". -/
def closedMediaLead : Lead :=
  { id := "L3", name := "Cara", source := "Media Alpha", contact_method := "Text"
  , quote_status := "Accepted", lead_status := "Cold", quoted_price := some 250
  , created_at := 10, next_followup := 259210, status := "Closed" }

/-- A concrete valid create-form input. -/
def demoForm : LeadForm :=
  { name := "Alice", source := "Website", contact_method := "Phone"
  , quote_status := "Sent", lead_status := "Hot", quoted_price := none }

/-- A create-form input carrying a negative quoted price, as a hand-crafted
POST request may submit (the server performs no sign check). -/
def negPriceForm : LeadForm :=
  { name := "Bob", source := "Phone", contact_method := "Call"
  , quote_status := "Requested", lead_status := "Warm", quoted_price := some (-5) }

/-- A create-form input with a non-negative quoted price. -/
def okPriceForm : LeadForm :=
  { name := "Dan", source := "Referral", contact_method := "Email"
  , quote_status := "Sent", lead_status := "Cold", quoted_price := some 250 }

/-! ## Helper lemmas about the status-update store mutation -/

/-- Any element of the mutated store is either an untouched element of the old
store or an old element with its `status` field replaced. -/
theorem set_status_first_mem_src (lead_id ns : String) (store : List Lead) :
    ∀ x ∈ set_status_first store lead_id ns,
      x ∈ store ∨ ∃ l, l ∈ store ∧ x = { l with status := ns } := by
  induction store with
  | nil => intro x hx; simp [set_status_first] at hx
  | cons a as ih =>
    intro x hx
    by_cases ha : a.id = lead_id
    · simp only [set_status_first, if_pos ha] at hx
      rcases List.mem_cons.mp hx with hx | hx
      · exact Or.inr ⟨a, List.mem_cons_self a as, hx⟩
      · exact Or.inl (List.mem_cons_of_mem _ hx)
    · simp only [set_status_first, if_neg ha] at hx
      rcases List.mem_cons.mp hx with hx | hx
      · exact Or.inl (by simp [hx])
      · rcases ih x hx with h2 | ⟨l2, hl2, hx2⟩
        · exact Or.inl (List.mem_cons_of_mem _ h2)
        · exact Or.inr ⟨l2, List.mem_cons_of_mem _ hl2, hx2⟩

/-- Looking the lead up again after the mutation finds the same record with
only its `status` replaced. -/
theorem set_status_first_find (lead_id ns : String) (store : List Lead) (l : Lead)
    (h : store.find? (fun x => decide (x.id = lead_id)) = some l) :
    (set_status_first store lead_id ns).find? (fun x => decide (x.id = lead_id)) =
      some { l with status := ns } := by
  induction store with
  | nil => simp [List.find?] at h
  | cons a as ih =>
    by_cases ha : a.id = lead_id
    · have hal : a = l := by
        simpa [List.find?_cons, ha] using h
      subst hal
      simp [set_status_first, ha, List.find?_cons]
    · have h2 : as.find? (fun x => decide (x.id = lead_id)) = some l := by
        simpa [List.find?_cons, ha] using h
      simp only [set_status_first, if_neg ha]
      simpa [List.find?_cons, ha] using ih h2

/-- Any element of a store returned by `update_lead_status` is an old element
or an old element with its `status` replaced by the requested value. -/
theorem update_lead_status_mem (store : List Lead) (lead_id ns : String) (x : Lead)
    (hx : x ∈ (update_lead_status store lead_id ns).2) :
    x ∈ store ∨ ∃ l, l ∈ store ∧ x = { l with status := ns } := by
  unfold update_lead_status at hx
  cases hfind : store.find? (fun y => decide (y.id = lead_id)) with
  | none => rw [hfind] at hx; exact Or.inl hx
  | some a => rw [hfind] at hx; exact set_status_first_mem_src lead_id ns store x hx

/-- Generic invariant preservation for runs of the two store operations: a
per-lead property `P` guaranteed by well-formed creates and preserved by
well-formed status overwrites holds for every lead in the final store. -/
theorem foldl_invariant (P : Lead → Prop) (Q : Op → Bool)
    (hcreate : ∀ now now2 nid form, Q (Op.create now now2 nid form) = true →
        P (make_lead now now2 nid form))
    (hupdate : ∀ lid ns l, Q (Op.update lid ns) = true → P l →
        P { l with status := ns }) :
    ∀ ops : List Op, ∀ store : List Lead, (∀ op ∈ ops, Q op = true) →
      (∀ l ∈ store, P l) → ∀ l ∈ List.foldl applyOp store ops, P l := by
  intro ops
  induction ops with
  | nil => intro store _ hstore l hl; exact hstore l (by simpa using hl)
  | cons op ops ih =>
    intro store hops hstore
    rw [List.foldl_cons]
    refine ih (applyOp store op) (fun o ho => hops o (List.mem_cons_of_mem _ ho)) ?_
    intro l hl
    have hop := hops op (List.mem_cons_self op ops)
    cases op with
    | create now now2 nid form =>
      dsimp only [applyOp, create_lead] at hl
      rcases List.mem_append.mp hl with h | h
      · exact hstore l h
      · have he : l = make_lead now now2 nid form := by simpa using h
        exact he ▸ hcreate now now2 nid form hop
    | update lid ns =>
      rcases update_lead_status_mem store lid ns l hl with h | ⟨l2, hl2, he⟩
      · exact hstore l h
      · exact he ▸ hupdate lid ns l2 hop (hstore l2 hl2)

/-! ## C4 -/

/-- C4: with the clock injected, `calculate_next_followup` returns the clock
value plus exactly 3 hours for "Hot", 24 hours for "Warm", 72 hours for
"Cold", and 24 hours for any other temperature string. -/
theorem calculate_next_followup_spec (now : ℕ) (t : String)
    (h : t ≠ "Hot" ∧ t ≠ "Warm" ∧ t ≠ "Cold") :
    calculate_next_followup now "Hot" = now + 3 * 3600 ∧
    calculate_next_followup now "Warm" = now + 24 * 3600 ∧
    calculate_next_followup now "Cold" = now + 72 * 3600 ∧
    calculate_next_followup now t = now + 24 * 3600 := by
  obtain ⟨h1, h2, h3⟩ := h
  refine ⟨?_, ?_, ?_, ?_⟩ <;>
    simp [calculate_next_followup, STATUS_FOLLOWUP_HOURS, h1, h2, h3]

/-- C4 witness: the follow-up offsets evaluated at clock value 1000 with the
unknown temperature "Email". -/
theorem calculate_next_followup_spec_witness :
    (("Email" : String) ≠ "Hot" ∧ ("Email" : String) ≠ "Warm" ∧
      ("Email" : String) ≠ "Cold") ∧
    (calculate_next_followup 1000 "Hot" = 1000 + 3 * 3600 ∧
     calculate_next_followup 1000 "Warm" = 1000 + 24 * 3600 ∧
     calculate_next_followup 1000 "Cold" = 1000 + 72 * 3600 ∧
     calculate_next_followup 1000 "Email" = 1000 + 24 * 3600) :=
  ⟨by decide, calculate_next_followup_spec 1000 "Email" (by decide)⟩

/-! ## C3 -/

/-- C3: `get_followup_leads` returns exactly the leads of the store whose
lifecycle status is "Active" and whose `next_followup` is at or before `now`;
leads in any other lifecycle state are excluded regardless of their
`next_followup` value. -/
theorem get_followup_leads_spec (store : List Lead) (now : ℕ) (l : Lead) :
    l ∈ get_followup_leads store now ↔
      l ∈ store ∧ l.status = "Active" ∧ l.next_followup ≤ now := by
  simp only [get_followup_leads, List.mem_filter, decide_eq_true_eq]
  tauto

/-! ## C8 -/

/-- C8 (code bug in the source): when the store read fails, the metrics
operations do not propagate any error; they return 0, the empty list and the
all-zero count bundle, each of which is exactly the value returned for a
healthy empty store, so callers cannot distinguish a store failure from
"no data". -/
theorem metrics_mask_store_failure :
    calculate_close_ratio_db (Except.error DbError.failure) none = 0 ∧
    calculate_close_ratio_db (Except.ok []) none = 0 ∧
    get_followup_leads_db (Except.error DbError.failure) 0 = [] ∧
    get_followup_leads_db (Except.ok []) 0 = [] ∧
    get_lead_counts_db (Except.error DbError.failure) 86400 =
      get_lead_counts_db (Except.ok []) 86400 := by
  exact ⟨rfl, rfl, rfl, rfl, rfl⟩

/-! ## C1 -/

/-- C1 counterexample: the lead "L1" is already Closed, yet the update call
with target "Lost" succeeds and overwrites the stored status instead of
failing and leaving the status unchanged. -/
theorem update_terminal_lead_counterexample :
    closedLead.status = "Closed" ∧
    update_lead_status [closedLead] "L1" "Lost" =
      (true, [{ closedLead with status := "Lost" }]) := by
  exact ⟨rfl, rfl⟩

/-- C1 amended: `update_lead_status` performs no check of the current status:
for a lead present in the store — including one already in a terminal state —
the call reports success and overwrites the stored status with the requested
target; only an absent id makes it fail. -/
theorem update_lead_status_overwrites (store : List Lead)
    (lead_id target : String) (l : Lead)
    (hfind : store.find? (fun x => decide (x.id = lead_id)) = some l)
    (_hterm : l.status ≠ "Active") :
    (update_lead_status store lead_id target).1 = true ∧
    (update_lead_status store lead_id target).2.find?
        (fun x => decide (x.id = lead_id)) = some { l with status := target } := by
  unfold update_lead_status
  rw [hfind]
  exact ⟨rfl, set_status_first_find lead_id target store l hfind⟩

/-- C1 amended witness: the already-Closed lead is found, the call succeeds
and the stored status becomes "Lost". -/
theorem update_lead_status_overwrites_witness :
    ([closedLead].find? (fun x => decide (x.id = "L1")) = some closedLead ∧
     closedLead.status ≠ "Active") ∧
    ((update_lead_status [closedLead] "L1" "Lost").1 = true ∧
     (update_lead_status [closedLead] "L1" "Lost").2.find?
        (fun x => decide (x.id = "L1")) = some { closedLead with status := "Lost" }) :=
  ⟨⟨by decide, by decide⟩,
   update_lead_status_overwrites [closedLead] "L1" "Lost" closedLead
     (by decide) (by decide)⟩

/-! ## C2 -/

/-- C2 counterexample: after a create and a Closed update the store is
reachable with its lead Closed; one more update request moves the lead out of
Closed to "Lost", and an arbitrary target string takes the status outside
{Active, Closed, Lost} altogether. -/
theorem lifecycle_transitions_counterexample :
    (run [Op.create 0 0 "L1" demoForm, Op.update "L1" "Closed"]).map
        (fun l => l.status) = ["Closed"] ∧
    (run [Op.create 0 0 "L1" demoForm, Op.update "L1" "Closed",
          Op.update "L1" "Lost"]).map (fun l => l.status) = ["Lost"] ∧
    (run [Op.create 0 0 "L1" demoForm, Op.update "L1" "Closed",
          Op.update "L1" "Banana"]).map (fun l => l.status) = ["Banana"] := by
  exact ⟨rfl, rfl, rfl⟩

/-- C2 amended: creation stores status "Active" and a status update overwrites
the status with the requested target unconditionally; hence whenever every
update request of a run carries one of the two UI targets "Closed"/"Lost",
every lead of the reachable store has status in {Active, Closed, Lost} — but
updates also apply to already-terminal leads, so Closed→Lost and Lost→Closed
overwrites remain possible. -/
theorem lifecycle_status_invariant (ops : List Op) (l : Lead)
    (hops : ∀ op ∈ ops, targetTerminal op = true) (hl : l ∈ run ops) :
    l.status = "Active" ∨ l.status = "Closed" ∨ l.status = "Lost" := by
  refine foldl_invariant
    (fun x => x.status = "Active" ∨ x.status = "Closed" ∨ x.status = "Lost")
    targetTerminal ?_ ?_ ops [] hops ?_ l hl
  · intro now now2 nid form _
    exact Or.inl rfl
  · intro lid ns x hns _
    simp only [targetTerminal, Bool.or_eq_true, decide_eq_true_eq] at hns
    rcases hns with h | h
    · exact Or.inr (Or.inl h)
    · exact Or.inr (Or.inr h)
  · intro x hx
    exact absurd hx (List.not_mem_nil x)

/-- C2 amended witness: the run create-then-close keeps the lead's status
inside the lifecycle set. -/
theorem lifecycle_status_invariant_witness :
    ((∀ op ∈ [Op.create 0 0 "L1" demoForm, Op.update "L1" "Closed"],
        targetTerminal op = true) ∧
     { make_lead 0 0 "L1" demoForm with status := "Closed" } ∈
        run [Op.create 0 0 "L1" demoForm, Op.update "L1" "Closed"]) ∧
    ({ make_lead 0 0 "L1" demoForm with status := "Closed" }.status = "Active" ∨
     { make_lead 0 0 "L1" demoForm with status := "Closed" }.status = "Closed" ∨
     { make_lead 0 0 "L1" demoForm with status := "Closed" }.status = "Lost") :=
  ⟨⟨by decide, by decide⟩,
   lifecycle_status_invariant
     [Op.create 0 0 "L1" demoForm, Op.update "L1" "Closed"]
     { make_lead 0 0 "L1" demoForm with status := "Closed" }
     (by decide) (by decide)⟩

/-! ## C5 -/

/-- C5: a created lead has status "Active" and satisfies
created_at ≤ next_followup (the first clock read is not later than the second
one and the follow-up offset is added on top of the second); and in every
store reachable by creates with in-order clock reads and by status updates,
every lead satisfies created_at ≤ next_followup. -/
theorem create_lead_active_ordered (ops : List Op) (now now2 : ℕ)
    (new_id : String) (form : LeadForm) (l : Lead)
    (h12 : now ≤ now2) (hops : ∀ op ∈ ops, monotoneClock op = true)
    (hl : l ∈ run ops) :
    (make_lead now now2 new_id form).status = "Active" ∧
    (make_lead now now2 new_id form).created_at ≤
      (make_lead now now2 new_id form).next_followup ∧
    l.created_at ≤ l.next_followup := by
  refine ⟨rfl, ?_, ?_⟩
  · show now ≤ calculate_next_followup now2 form.lead_status
    unfold calculate_next_followup
    exact le_trans h12 (Nat.le_add_right _ _)
  · refine foldl_invariant (fun x => x.created_at ≤ x.next_followup)
      monotoneClock ?_ ?_ ops [] hops ?_ l hl
    · intro n n2 nid f hq
      have hn : n ≤ n2 := by simpa [monotoneClock] using hq
      show n ≤ calculate_next_followup n2 f.lead_status
      unfold calculate_next_followup
      exact le_trans hn (Nat.le_add_right _ _)
    · intro lid ns x _ hx
      exact hx
    · intro x hx
      exact absurd hx (List.not_mem_nil x)

/-- C5 witness: one create request with clock reads 5 and 10 yields an Active
lead whose creation time is before its follow-up time. -/
theorem create_lead_active_ordered_witness :
    (5 ≤ 10 ∧
     (∀ op ∈ [Op.create 5 10 "L4" demoForm], monotoneClock op = true) ∧
     make_lead 5 10 "L4" demoForm ∈ run [Op.create 5 10 "L4" demoForm]) ∧
    ((make_lead 5 10 "L4" demoForm).status = "Active" ∧
     (make_lead 5 10 "L4" demoForm).created_at ≤
       (make_lead 5 10 "L4" demoForm).next_followup ∧
     (make_lead 5 10 "L4" demoForm).created_at ≤
       (make_lead 5 10 "L4" demoForm).next_followup) :=
  ⟨⟨by decide, by decide, by decide⟩,
   create_lead_active_ordered [Op.create 5 10 "L4" demoForm] 5 10 "L4" demoForm
     (make_lead 5 10 "L4" demoForm) (by decide) (by decide) (by decide)⟩

/-! ## C6 -/

/-- C6: for any store, with no source supplied or any non-empty source
supplied (source values are drawn from the non-empty acquisition-channel
enumeration), the close ratio is the number of Closed leads in scope divided
by the total number of leads in scope times 100, and exactly 0 when the scope
is empty; the result is a total rational — no error and no NaN exist on any
path. -/
theorem calculate_close_ratio_spec (store : List Lead) (source : Option String)
    (hs : ∀ s, source = some s → s ≠ "") :
    calculate_close_ratio store source =
      if (store.filter (inScopeSpec source)).length = 0 then 0
      else ((store.filter (fun l => inScopeSpec source l &&
              decide (l.status = "Closed"))).length : ℚ)
            / ((store.filter (inScopeSpec source)).length : ℚ) * 100 := by
  cases source with
  | none => rfl
  | some s =>
    have hne : s ≠ "" := hs s rfl
    have hsp : inScopeSpec (some s) = fun l => decide (l.source = s) := rfl
    simp only [calculate_close_ratio, hsp, if_neg hne]

/-- C6 witness: two "Media Alpha" leads, one Closed and one Active — the ratio
is the spec formula and evaluates to 50. -/
theorem calculate_close_ratio_spec_witness :
    (∀ s, (some "Media Alpha" : Option String) = some s → s ≠ "") ∧
    (calculate_close_ratio [closedMediaLead, activeLead] (some "Media Alpha") =
      if ([closedMediaLead, activeLead].filter
            (inScopeSpec (some "Media Alpha"))).length = 0 then 0
      else (([closedMediaLead, activeLead].filter
              (fun l => inScopeSpec (some "Media Alpha") l &&
                decide (l.status = "Closed"))).length : ℚ)
            / (([closedMediaLead, activeLead].filter
                (inScopeSpec (some "Media Alpha"))).length : ℚ) * 100) ∧
    calculate_close_ratio [closedMediaLead, activeLead] (some "Media Alpha") = 50 := by
  refine ⟨?_, calculate_close_ratio_spec _ _ ?_, ?_⟩
  · intro s hs
    simp only [Option.some.injEq] at hs
    subst hs
    decide
  · intro s hs
    simp only [Option.some.injEq] at hs
    subst hs
    decide
  · have h1 : ("Media Alpha" : String) ≠ "" := by decide
    have h2 : ("Active" : String) ≠ "Closed" := by decide
    norm_num [calculate_close_ratio, closedMediaLead, activeLead, h1, h2]

/-! ## C7 -/

/-- C7 counterexample: one Closed lead from "Website" — a source that is not
first-class. The bundle's "other" entry is 0 because it scopes the literal
source string "Other" only, while the close ratio over the leads from all
non-first-class sources is 100. -/
theorem source_close_ratios_counterexample :
    (get_source_close_ratios [closedLead]).other = 0 ∧
    calculate_close_ratio ([closedLead].filter
      (fun l => !(decide (l.source = "Media Alpha") ||
                  decide (l.source = "Smart Financial")))) none = 100 := by
  constructor
  · rfl
  · have h1 : ("Website" : String) ≠ "Media Alpha" := by decide
    have h2 : ("Website" : String) ≠ "Smart Financial" := by decide
    norm_num [calculate_close_ratio, closedLead, h1, h2]

/-- C7 amended: the bundle contains the overall ratio and the ratios of the
two first-class sources, and its "other" entry is the close ratio scoped to
the literal source string "Other" only: a lead from any other non-first-class
source (such as "Website") never affects the "other" entry. -/
theorem source_close_ratios_literal_other (store : List Lead) (l : Lead)
    (h : l.source ≠ "Other") :
    (get_source_close_ratios store).overall = calculate_close_ratio store none ∧
    (get_source_close_ratios store).media_alpha =
      calculate_close_ratio store (some "Media Alpha") ∧
    (get_source_close_ratios store).smart_financial =
      calculate_close_ratio store (some "Smart Financial") ∧
    (get_source_close_ratios (store ++ [l])).other =
      (get_source_close_ratios store).other := by
  refine ⟨rfl, rfl, rfl, ?_⟩
  have hOther : ("Other" : String) ≠ "" := by decide
  simp only [get_source_close_ratios, calculate_close_ratio, List.filter_append]
  simp [h, hOther]

/-- C7 amended witness: appending the "Website" lead to a store leaves the
"other" entry unchanged. -/
theorem source_close_ratios_literal_other_witness :
    closedLead.source ≠ "Other" ∧
    ((get_source_close_ratios [activeLead]).overall =
        calculate_close_ratio [activeLead] none ∧
     (get_source_close_ratios [activeLead]).media_alpha =
        calculate_close_ratio [activeLead] (some "Media Alpha") ∧
     (get_source_close_ratios [activeLead]).smart_financial =
        calculate_close_ratio [activeLead] (some "Smart Financial") ∧
     (get_source_close_ratios ([activeLead] ++ [closedLead])).other =
        (get_source_close_ratios [activeLead]).other) :=
  ⟨by decide, source_close_ratios_literal_other [activeLead] closedLead (by decide)⟩

/-! ## C9 -/

/-- C9 counterexample: the create handler performs no server-side sign check
on the parsed quoted price, so a request submitting -5 reaches the store with
quoted price -5, violating non-negativity. -/
theorem quoted_price_counterexample :
    (run [Op.create 0 0 "L5" negPriceForm]).map (fun l => l.quoted_price) =
      [some (-5 : ℚ)] ∧
    ¬ (0 : ℚ) ≤ -5 := by
  exact ⟨rfl, by decide⟩

/-- C9 amended: the create handlers store the submitted quoted price verbatim
(the only ≥ 0 guard is the client-side form attribute), so stored quoted
prices are non-negative exactly when every create request's submitted price is
non-negative when present; under that assumption every present quoted price in
every reachable store is non-negative. -/
theorem quoted_price_invariant (ops : List Op) (l : Lead) (q : ℚ)
    (hops : ∀ op ∈ ops, priceNonneg op = true) (hl : l ∈ run ops)
    (hq : l.quoted_price = some q) : 0 ≤ q := by
  have hP := foldl_invariant (fun x => ∀ r, x.quoted_price = some r → 0 ≤ r)
    priceNonneg ?_ ?_ ops [] hops ?_ l hl
  · exact hP q hq
  · intro n n2 nid f hf r hr
    have hfr : f.quoted_price = some r := hr
    simp only [priceNonneg] at hf
    rw [hfr] at hf
    exact of_decide_eq_true hf
  · intro lid ns x _ hx r hr
    exact hx r hr
  · intro x hx
    exact absurd hx (List.not_mem_nil x)

/-- C9 amended witness: a create request with quoted price 250 yields a store
whose stored price is non-negative. -/
theorem quoted_price_invariant_witness :
    ((∀ op ∈ [Op.create 0 0 "L6" okPriceForm], priceNonneg op = true) ∧
     make_lead 0 0 "L6" okPriceForm ∈ run [Op.create 0 0 "L6" okPriceForm] ∧
     (make_lead 0 0 "L6" okPriceForm).quoted_price = some (250 : ℚ)) ∧
    (0 : ℚ) ≤ 250 :=
  ⟨⟨by decide, by decide, by decide⟩,
   quoted_price_invariant [Op.create 0 0 "L6" okPriceForm]
     (make_lead 0 0 "L6" okPriceForm) 250 (by decide) (by decide) (by decide)⟩

/-! ## C10 -/

/-- The frame relation is reflexive: an untouched record is related to
itself. -/
theorem frame_rel_refl (lead_id : String) (l : Lead) : frame_rel lead_id l l := by
  unfold frame_rel
  exact ⟨rfl, rfl, rfl, rfl, rfl, rfl, rfl, rfl, rfl, fun _ => rfl⟩

/-- The status mutation relates the old and new stores pointwise by the frame
relation. -/
theorem set_status_first_frame (lead_id ns : String) (store : List Lead) :
    List.Forall₂ (frame_rel lead_id) store (set_status_first store lead_id ns) := by
  induction store with
  | nil => exact List.Forall₂.nil
  | cons a as ih =>
    by_cases ha : a.id = lead_id
    · simp only [set_status_first, if_pos ha]
      refine List.Forall₂.cons ?_ ?_
      · unfold frame_rel
        exact ⟨rfl, rfl, rfl, rfl, rfl, rfl, rfl, rfl, rfl, fun hne => absurd ha hne⟩
      · exact List.forall₂_same.mpr (fun x _ => frame_rel_refl lead_id x)
    · simp only [set_status_first, if_neg ha]
      exact List.Forall₂.cons (frame_rel_refl lead_id a) ih

/-- C10: a successful status update reports success and relates the old and
new stores pointwise: id, name, source, contact method, quote status,
temperature, quoted price and both timestamps of every record are unchanged,
and every record whose id differs from the requested one is entirely
unmodified; the pointwise relation also forces the store to keep its length
and order. -/
theorem update_lead_status_frame (store : List Lead) (lead_id target : String)
    (hfind : (store.find? (fun x => decide (x.id = lead_id))).isSome = true) :
    (update_lead_status store lead_id target).1 = true ∧
    List.Forall₂ (frame_rel lead_id) store
      (update_lead_status store lead_id target).2 := by
  obtain ⟨l, hl⟩ := Option.isSome_iff_exists.mp hfind
  unfold update_lead_status
  rw [hl]
  exact ⟨rfl, set_status_first_frame lead_id target store⟩

/-- C10 witness: updating the single active lead succeeds and the frame
relation holds between the old and new stores. -/
theorem update_lead_status_frame_witness :
    ([activeLead].find? (fun x => decide (x.id = "L2"))).isSome = true ∧
    ((update_lead_status [activeLead] "L2" "Closed").1 = true ∧
     List.Forall₂ (frame_rel "L2") [activeLead]
       (update_lead_status [activeLead] "L2" "Closed").2) :=
  ⟨by decide, update_lead_status_frame [activeLead] "L2" "Closed" (by decide)⟩
